import Mathlib

/-!
Verification of the A/B-testing platform's core algorithms.

Part I embeds the assignment engine (`generateUserHash`, `assignVariation`
from the utils module).  The MD5 digest comes from Node's `crypto` library,
which is external to the repository, so it is abstracted as a parameter
`md5hex : String → String` (the hex digest of the concatenated ids); the
repository's own code — taking the first 8 hex characters, `parseInt(·, 16)`,
`% 100`, the cumulative walk over the traffic split and the
`Object.keys(trafficSplit)[0] || 'A'` fallback — is embedded faithfully.
JavaScript numbers in the traffic split are modelled as rationals; the NaN
that `parseInt` produces on a digit-less string is modelled as `none`
(every `NaN < x` comparison is false, matching JavaScript).

Part II embeds the statistics module over the real numbers.
-/

/-- Numeric value of one hexadecimal character, `none` for a non-hex
character (as used by JavaScript's `parseInt` with radix 16). -/
def hexVal (c : Char) : Option ℕ :=
  if '0' ≤ c ∧ c ≤ '9' then some (c.toNat - 48)
  else if 'a' ≤ c ∧ c ≤ 'f' then some (c.toNat - 87)
  else if 'A' ≤ c ∧ c ≤ 'F' then some (c.toNat - 55)
  else none

/-- Accumulate the maximal leading run of hex digits (JavaScript
`parseInt(s, 16)` stops at the first non-digit). -/
def parseHexAux : List Char → ℕ → ℕ
  | [], acc => acc
  | c :: rest, acc =>
    match hexVal c with
    | some d => parseHexAux rest (16 * acc + d)
    | none => acc

/-- JavaScript `parseInt(s, 16)`: `none` models the NaN returned when the
string does not start with a hex digit. -/
def parseIntHex : List Char → Option ℕ
  | [] => none
  | c :: rest =>
    match hexVal c with
    | none => none
    | some _ => some (parseHexAux (c :: rest) 0)

/-- `generateUserHash(userId, testId)`: md5 hex digest of the concatenation,
first 8 characters (`hash.substring(0, 8)`, i.e. `take 8` on the character
sequence) parsed as a base-16 integer.  `md5hex` abstracts Node's
`crypto.createHash('md5')....digest('hex')`. -/
def generateUserHash (md5hex : String → String) (userId testId : String) :
    Option ℕ :=
  parseIntHex ((md5hex (userId ++ testId)).data.take 8)

/-- The loop guard `percentage < cumulative`; a `none` percentage is
JavaScript's NaN, for which every `<` comparison is false. -/
def bucketLt (bucket : Option ℕ) (c : ℚ) : Bool :=
  match bucket with
  | some b => decide ((b : ℚ) < c)
  | none => false

/-- The `for (const [variation, traffic] of Object.entries(trafficSplit))`
loop of `assignVariation`: running cumulative total, first entry whose
cumulative total exceeds the bucket. -/
def pickVariation (bucket : Option ℕ) (cum : ℚ) :
    List (String × ℚ) → Option String
  | [] => none
  | (v, traffic) :: rest =>
    if bucketLt bucket (cum + traffic) then some v
    else pickVariation bucket (cum + traffic) rest

/-- `assignVariation(userId, testId, trafficSplit)`.  The post-loop fallback
is `Object.keys(trafficSplit)[0] || 'A'`: the first key when the split is
non-empty, except that an empty-string key is falsy in JavaScript and so
also falls through to `'A'`. -/
def assignVariation (md5hex : String → String) (userId testId : String)
    (trafficSplit : List (String × ℚ)) : String :=
  let percentage := (generateUserHash md5hex userId testId).map (· % 100)
  match pickVariation percentage 0 trafficSplit with
  | some v => v
  | none =>
    match trafficSplit with
    | [] => "A"
    | (v, _) :: _ => if v = "" then "A" else v

/-- The walk of the spec's words: accumulate percentages in declaration
order, return the first variation whose cumulative total exceeds the
bucket. -/
def specFirstExceeding (bucket : ℕ) (cum : ℚ) :
    List (String × ℚ) → Option String
  | [] => none
  | (v, traffic) :: rest =>
    if (bucket : ℚ) < cum + traffic then some v
    else specFirstExceeding bucket (cum + traffic) rest

/-- Spec-side assignment (amended fallback): the first variation whose
cumulative total strictly exceeds the bucket, otherwise the first declared
variation — except that a first variation labelled by the empty string
yields `"A"`. -/
def specAssign (bucket : ℕ) (split : List (String × ℚ)) : String :=
  match specFirstExceeding bucket 0 split with
  | some v => v
  | none =>
    match split with
    | [] => "A"
    | (v, _) :: _ => if v = "" then "A" else v

lemma pickVariation_eq_specFirstExceeding (b : ℕ)
    (split : List (String × ℚ)) :
    ∀ cum : ℚ, pickVariation (some b) cum split = specFirstExceeding b cum split := by
  induction split with
  | nil => intro cum; rfl
  | cons hd tl ih =>
    intro cum
    obtain ⟨v, traffic⟩ := hd
    simp only [pickVariation, specFirstExceeding, bucketLt, decide_eq_true_eq]
    by_cases h : (b : ℚ) < cum + traffic
    · rw [if_pos h, if_pos h]
    · rw [if_neg h, if_neg h, ih]

lemma pickVariation_isSome (b : ℕ) (split : List (String × ℚ)) :
    ∀ cum : ℚ, cum ≤ (b : ℚ) → (b : ℚ) < cum + (split.map Prod.snd).sum →
      ∃ v, pickVariation (some b) cum split = some v := by
  induction split with
  | nil =>
    intro cum hle hlt
    simp only [List.map_nil, List.sum_nil, add_zero] at hlt
    exact absurd hlt (not_lt.mpr hle)
  | cons hd tl ih =>
    intro cum hle hlt
    obtain ⟨v, traffic⟩ := hd
    simp only [pickVariation, bucketLt, decide_eq_true_eq]
    by_cases h : (b : ℚ) < cum + traffic
    · exact ⟨v, by rw [if_pos h]⟩
    · have hle' : cum + traffic ≤ (b : ℚ) := not_lt.mp h
      have hlt' : (b : ℚ) < cum + traffic + (tl.map Prod.snd).sum := by
        simpa [add_assoc] using hlt
      obtain ⟨w, hw⟩ := ih (cum + traffic) hle' hlt'
      exact ⟨w, by rw [if_neg h]; exact hw⟩

/-- C2: `assignVariation` is a deterministic pure function: for a fixed
md5 digest function and fixed (visitorId, experimentId, trafficSplit),
any two runs produce the same variation label. -/
theorem assignVariation_deterministic (md5hex : String → String)
    (visitorId experimentId : String) (trafficSplit : List (String × ℚ))
    (r₁ r₂ : String)
    (h₁ : r₁ = assignVariation md5hex visitorId experimentId trafficSplit)
    (h₂ : r₂ = assignVariation md5hex visitorId experimentId trafficSplit) :
    r₁ = r₂ :=
  h₁.trans h₂.symm

theorem assignVariation_deterministic_witness :
    assignVariation (fun _ => "00f3a2bc") "visitor-1" "exp-1"
        [("A", 50), ("B", 50)] =
      assignVariation (fun _ => "00f3a2bc") "visitor-1" "exp-1"
        [("A", 50), ("B", 50)] :=
  assignVariation_deterministic (fun _ => "00f3a2bc") "visitor-1" "exp-1"
    [("A", 50), ("B", 50)] _ _ rfl rfl

/-- C10: with an empty traffic split the assignment does not fail and
returns the literal `"A"` (`Object.keys({})[0]` is `undefined`, so the
fallback `|| 'A'` fires). -/
theorem assignVariation_empty_split (md5hex : String → String)
    (userId testId : String) :
    assignVariation md5hex userId testId [] = "A" := rfl

/-- C3 counterexample: on the malformed but non-empty split `{"": 0}` no
cumulative total exceeds the bucket, yet the code returns `"A"`, not the
first declared variation `""` (the empty-string key is falsy in
JavaScript, so `Object.keys(trafficSplit)[0] || 'A'` yields `'A'`). -/
theorem assignVariation_fallback_cex :
    specFirstExceeding 0 0 [("", (0 : ℚ))] = none ∧
    assignVariation (fun _ => "0") "u" "t" [("", (0 : ℚ))] = "A" ∧
    "A" ≠ ("" : String) := by
  have h1 : generateUserHash (fun _ => "0") "u" "t" = some 0 := by decide
  refine ⟨by norm_num [specFirstExceeding], ?_, by decide⟩
  norm_num [assignVariation, h1, Option.map_some', pickVariation, bucketLt]

/-- C3 (amended): whenever the 8-character hex prefix of the digest parses
(as it always does for a genuine MD5 hex digest), the bucket is
`hash % 100 < 100` and `assignVariation` returns the first variation whose
cumulative total strictly exceeds the bucket, falling back to the first
declared variation — or to `"A"` when that variation's label is the empty
string — and, being a total function, never throws on malformed non-empty
splits. -/
theorem assignVariation_walk_spec (md5hex : String → String) (u t : String)
    (split : List (String × ℚ)) (hne : split ≠ []) (hv : ℕ)
    (hh : generateUserHash md5hex u t = some hv) :
    hv % 100 < 100 ∧
    assignVariation md5hex u t split = specAssign (hv % 100) split := by
  refine ⟨Nat.mod_lt _ (by norm_num), ?_⟩
  simp only [assignVariation, hh, Option.map_some']
  rw [pickVariation_eq_specFirstExceeding]
  cases h : specFirstExceeding (hv % 100) 0 split with
  | none => simp only [specAssign, h]
  | some v => simp only [specAssign, h]

theorem assignVariation_walk_spec_witness :
    [("A", (60 : ℚ)), ("B", 40)] ≠ [] ∧
    (assignVariation (fun _ => "ff00") "visitor" "exp"
        [("A", (60 : ℚ)), ("B", 40)] =
      specAssign (65280 % 100) [("A", (60 : ℚ)), ("B", 40)]) :=
  ⟨by decide,
    (assignVariation_walk_spec (fun _ => "ff00") "visitor" "exp"
      [("A", (60 : ℚ)), ("B", 40)] (by decide) 65280 rfl).2⟩

/-- C9: when the non-empty split's percentages are non-negative integers
summing to at least 100, the cumulative walk always finds an entry whose
running total strictly exceeds the bucket, so the post-loop fallback is
unreachable: the returned label is the one found by the walk. -/
theorem assignVariation_no_fallback (md5hex : String → String) (u t : String)
    (split : List (String × ℚ)) (hne : split ≠ [])
    (hint : ∀ p ∈ split, ∃ k : ℕ, p.2 = (k : ℚ))
    (hsum : 100 ≤ (split.map Prod.snd).sum)
    (hv : ℕ) (hh : generateUserHash md5hex u t = some hv) :
    ∃ v, pickVariation (some (hv % 100)) 0 split = some v ∧
      assignVariation md5hex u t split = v := by
  have hb : ((hv % 100 : ℕ) : ℚ) < 100 := by
    exact_mod_cast Nat.mod_lt _ (by norm_num)
  obtain ⟨v, hvp⟩ := pickVariation_isSome (hv % 100) split 0
    (Nat.cast_nonneg _) (by rw [zero_add]; exact lt_of_lt_of_le hb hsum)
  refine ⟨v, hvp, ?_⟩
  simp only [assignVariation, hh, Option.map_some']
  rw [hvp]

theorem assignVariation_no_fallback_witness :
    ∃ v, pickVariation (some (26 % 100)) 0 [("A", (70 : ℚ)), ("B", 30)] = some v ∧
      assignVariation (fun _ => "1a") "u" "t" [("A", (70 : ℚ)), ("B", 30)] = v :=
  assignVariation_no_fallback (fun _ => "1a") "u" "t"
    [("A", (70 : ℚ)), ("B", 30)] (by decide)
    (by
      intro p hp
      simp only [List.mem_cons, List.not_mem_nil, or_false] at hp
      rcases hp with rfl | rfl
      · exact ⟨70, by norm_num⟩
      · exact ⟨30, by norm_num⟩)
    (by norm_num) 26 rfl

/-!
Part II: the statistics module, embedded over the real numbers (JavaScript
floating-point arithmetic idealised as exact real arithmetic; `Math.sqrt`,
`Math.exp`, `Math.abs`, `Math.pow`, `Math.ceil`, `Math.max`, `Math.min` as
their real counterparts; JavaScript `Infinity` as `⊤ : EReal` where a
function can return it).
-/

/-- `calculateZScore(x1, n1, x2, n2)`: pooled two-proportion z-score, with
the zero-exposure and zero-standard-error guards of the source. -/
noncomputable def calculateZScore (x1 n1 x2 n2 : ℝ) : ℝ :=
  if n1 = 0 ∨ n2 = 0 then 0
  else
    let p1 := x1 / n1
    let p2 := x2 / n2
    let p := (x1 + x2) / (n1 + n2)
    let se := Real.sqrt (p * (1 - p) * (1 / n1 + 1 / n2))
    if se = 0 then 0 else (p1 - p2) / se

/-- `normalCDF(x)`: the Abramowitz–Stegun rational approximation of the
standard normal CDF, exactly as coded (`x` is reassigned to
`Math.abs(x)/Math.sqrt(2)`, modelled as `x'`). -/
noncomputable def normalCDF (x : ℝ) : ℝ :=
  let a1 : ℝ := 0.254829592
  let a2 : ℝ := -0.284496736
  let a3 : ℝ := 1.421413741
  let a4 : ℝ := -1.453152027
  let a5 : ℝ := 1.061405429
  let p : ℝ := 0.3275911
  let sign : ℝ := if x < 0 then -1 else 1
  let x' := |x| / Real.sqrt 2
  let t := 1 / (1 + p * x')
  let y := 1 - (((((a5 * t + a4) * t) + a3) * t + a2) * t + a1) * t *
    Real.exp (-(x' * x'))
  0.5 * (1 + sign * y)

/-- `calculateSignificance(c1, v1, c2, v2)`: two-tailed p-value
`2·(1 − Φ(|z|))`, returning 1 when either visitor count is 0. -/
noncomputable def calculateSignificance
    (conversions1 visitors1 conversions2 visitors2 : ℝ) : ℝ :=
  if visitors1 = 0 ∨ visitors2 = 0 then 1
  else 2 * (1 - normalCDF
    |calculateZScore conversions1 visitors1 conversions2 visitors2|)

/-- `getZScore(confidenceLevel)`: lookup in the fixed table
`{0.90: 1.645, 0.95: 1.96, 0.99: 2.576}` with fallback 1.96 for any other
level (the computed `alpha` is unused in the source). -/
noncomputable def getZScore (confidenceLevel : ℝ) : ℝ :=
  if confidenceLevel = 0.90 then 1.645
  else if confidenceLevel = 0.95 then 1.96
  else if confidenceLevel = 0.99 then 2.576
  else 1.96

/-- `calculateConfidenceInterval(conversions, visitors, confidenceLevel)`:
Wald interval clamped to `[0, 1]`, `(0, 0)` when visitors is 0; returned as
the pair `(lower, upper)`. -/
noncomputable def calculateConfidenceInterval
    (conversions visitors confidenceLevel : ℝ) : ℝ × ℝ :=
  if visitors = 0 then (0, 0)
  else
    let p := conversions / visitors
    let z := getZScore confidenceLevel
    let margin := z * Real.sqrt (p * (1 - p) / visitors)
    (max 0 (p - margin), min 1 (p + margin))

/-- `calculateSampleSize(baselineRate, minimumDetectableEffect, alpha,
beta)`; the JavaScript defaults are `alpha = 0.05`, `beta = 0.20`. -/
noncomputable def calculateSampleSize
    (baselineRate minimumDetectableEffect alpha beta : ℝ) : ℤ :=
  let zAlpha := getZScore (1 - alpha / 2)
  let zBeta := getZScore (1 - beta)
  let p1 := baselineRate
  let p2 := baselineRate * (1 + minimumDetectableEffect)
  let pBar := (p1 + p2) / 2
  let numerator := (zAlpha * Real.sqrt (2 * pBar * (1 - pBar)) +
    zBeta * Real.sqrt (p1 * (1 - p1) + p2 * (1 - p2))) ^ 2
  let denominator := (p2 - p1) ^ 2
  ⌈numerator / denominator⌉

/-- `calculateUplift(baselineRate, testRate)`: relative percentage change;
JavaScript `Infinity` is `⊤ : EReal`. -/
noncomputable def calculateUplift (baselineRate testRate : ℝ) : EReal :=
  if baselineRate = 0 then (if 0 < testRate then ⊤ else 0)
  else (((testRate - baselineRate) / baselineRate) * 100 : ℝ)

/-- `chiSquareCDF(x, df)`: 0 for `x ≤ 0`; the exact df = 1 mapping
`2·Φ(√x) − 1`; the crude `min(1, x/(x+df))` placeholder otherwise. -/
noncomputable def chiSquareCDF (x df : ℝ) : ℝ :=
  if x ≤ 0 then 0
  else if df = 1 then 2 * normalCDF (Real.sqrt x) - 1
  else min 1 (x / (x + df))

/-- The record returned by `chiSquareTest`. -/
structure ChiSquareResult where
  chiSquare : ℝ
  pValue : ℝ
  isSignificant : Prop

/-- `chiSquareTest(c1, v1, c2, v2)`: Pearson chi-square statistic of the
2×2 table and its df = 1 p-value. -/
noncomputable def chiSquareTest
    (conversions1 visitors1 conversions2 visitors2 : ℝ) : ChiSquareResult :=
  let nonConversions1 := visitors1 - conversions1
  let nonConversions2 := visitors2 - conversions2
  let total := visitors1 + visitors2
  let totalConversions := conversions1 + conversions2
  let totalNonConversions := nonConversions1 + nonConversions2
  let e11 := visitors1 * totalConversions / total
  let e12 := visitors1 * totalNonConversions / total
  let e21 := visitors2 * totalConversions / total
  let e22 := visitors2 * totalNonConversions / total
  let chiSquare := (conversions1 - e11) ^ 2 / e11 +
    (nonConversions1 - e12) ^ 2 / e12 +
    (conversions2 - e21) ^ 2 / e21 +
    (nonConversions2 - e22) ^ 2 / e22
  let pValue := 1 - chiSquareCDF chiSquare 1
  ⟨chiSquare, pValue, pValue < 0.05⟩

/-- C1: `calculateZScore` returns 0 when either total is 0 and when the
pooled standard error `sqrt(p(1-p)(1/n1+1/n2))` is 0; and
`calculateSignificance` returns exactly 1 when either visitor count
is 0. -/
theorem zero_exposure_guards (x1 n1 x2 n2 : ℕ) :
    ((n1 = 0 ∨ n2 = 0) → calculateZScore x1 n1 x2 n2 = 0) ∧
    (Real.sqrt (((x1 : ℝ) + (x2 : ℝ)) / ((n1 : ℝ) + (n2 : ℝ)) *
        (1 - ((x1 : ℝ) + (x2 : ℝ)) / ((n1 : ℝ) + (n2 : ℝ))) *
        (1 / (n1 : ℝ) + 1 / (n2 : ℝ))) = 0 →
      calculateZScore x1 n1 x2 n2 = 0) ∧
    ((n1 = 0 ∨ n2 = 0) → calculateSignificance x1 n1 x2 n2 = 1) := by
  refine ⟨?_, ?_, ?_⟩
  · intro h
    have h' : (n1 : ℝ) = 0 ∨ (n2 : ℝ) = 0 := by
      rcases h with h | h <;> [left; right] <;> exact_mod_cast h
    simp only [calculateZScore]
    rw [if_pos h']
  · intro hse
    by_cases h : (n1 : ℝ) = 0 ∨ (n2 : ℝ) = 0
    · simp only [calculateZScore]; rw [if_pos h]
    · simp only [calculateZScore]; rw [if_neg h, if_pos hse]
  · intro h
    have h' : (n1 : ℝ) = 0 ∨ (n2 : ℝ) = 0 := by
      rcases h with h | h <;> [left; right] <;> exact_mod_cast h
    simp only [calculateSignificance]
    rw [if_pos h']

theorem zero_exposure_guards_witness :
    calculateZScore ((3 : ℕ) : ℝ) ((0 : ℕ) : ℝ) ((5 : ℕ) : ℝ) ((7 : ℕ) : ℝ) = 0 ∧
    calculateZScore ((0 : ℕ) : ℝ) ((1 : ℕ) : ℝ) ((0 : ℕ) : ℝ) ((1 : ℕ) : ℝ) = 0 ∧
    calculateSignificance ((3 : ℕ) : ℝ) ((0 : ℕ) : ℝ) ((5 : ℕ) : ℝ) ((7 : ℕ) : ℝ) = 1 :=
  ⟨(zero_exposure_guards 3 0 5 7).1 (Or.inl rfl),
   (zero_exposure_guards 0 1 0 1).2.1 (by norm_num),
   (zero_exposure_guards 3 0 5 7).2.2 (Or.inl rfl)⟩

lemma abs_calculateZScore_symm (a n b m : ℝ) :
    |calculateZScore a n b m| = |calculateZScore b m a n| := by
  by_cases h : n = 0 ∨ m = 0
  · simp only [calculateZScore]
    rw [if_pos h, if_pos (Or.symm h)]
  · have h' : ¬(m = 0 ∨ n = 0) := fun hc => h (Or.symm hc)
    simp only [calculateZScore]
    rw [if_neg h, if_neg h']
    have harg : (b + a) / (m + n) * (1 - (b + a) / (m + n)) * (1 / m + 1 / n) =
        (a + b) / (n + m) * (1 - (a + b) / (n + m)) * (1 / n + 1 / m) := by
      ring
    rw [harg]
    by_cases hs : Real.sqrt ((a + b) / (n + m) * (1 - (a + b) / (n + m)) *
        (1 / n + 1 / m)) = 0
    · rw [if_pos hs, if_pos hs]
    · rw [if_neg hs, if_neg hs, abs_div, abs_div, abs_sub_comm]

/-- C5: `calculateSignificance` is symmetric in its two samples. -/
theorem calculateSignificance_symm (a n b m : ℝ) :
    calculateSignificance a n b m = calculateSignificance b m a n := by
  by_cases h : n = 0 ∨ m = 0
  · simp only [calculateSignificance]
    rw [if_pos h, if_pos (Or.symm h)]
  · have h' : ¬(m = 0 ∨ n = 0) := fun hc => h (Or.symm hc)
    simp only [calculateSignificance]
    rw [if_neg h, if_neg h', abs_calculateZScore_symm]

/-- C6: `calculateUplift` returns `+∞` when the baseline rate is 0 and the
test rate is positive, 0 when both are 0, and otherwise the relative
percentage change; at (0.1, 0.12) it is exactly 20. -/
theorem calculateUplift_spec (b t : ℝ) :
    (b = 0 → 0 < t → calculateUplift b t = ⊤) ∧
    (b = 0 → t = 0 → calculateUplift b t = 0) ∧
    (b ≠ 0 → calculateUplift b t = (((t - b) / b) * 100 : ℝ)) ∧
    calculateUplift 0.1 0.12 = ((20 : ℝ) : EReal) := by
  refine ⟨?_, ?_, ?_, ?_⟩
  · intro hb ht; simp [calculateUplift, hb, ht]
  · intro hb ht; simp [calculateUplift, hb, ht]
  · intro hb; simp [calculateUplift, hb]
  · simp only [calculateUplift]
    rw [if_neg (by norm_num)]
    norm_num

theorem calculateUplift_spec_witness :
    calculateUplift 0 0.05 = ⊤ ∧ calculateUplift 0 0 = 0 :=
  ⟨(calculateUplift_spec 0 0.05).1 rfl (by norm_num),
   (calculateUplift_spec 0 0).2.1 rfl rfl⟩

/-- The claim C8's closed-form result: both the `zAlpha` and the `zBeta`
multiplier are the fallback value 1.96. -/
noncomputable def sampleSizeFormula
    (baselineRate minimumDetectableEffect : ℝ) : ℤ :=
  let p1 := baselineRate
  let p2 := baselineRate * (1 + minimumDetectableEffect)
  let pBar := (p1 + p2) / 2
  ⌈(1.96 * Real.sqrt (2 * pBar * (1 - pBar)) +
    1.96 * Real.sqrt (p1 * (1 - p1) + p2 * (1 - p2))) ^ 2 / (p2 - p1) ^ 2⌉

/-- C8: with the defaults `alpha = 0.05`, `beta = 0.20`, the power
multiplier is `getZScore(0.8) = 1.96` (0.8 is absent from the z-table, so
the fallback fires, not the standard 0.8416), and the result equals the
closed form with 1.96 in both places. -/
theorem calculateSampleSize_default_beta
    (baselineRate minimumDetectableEffect : ℝ) :
    getZScore (1 - 0.20) = 1.96 ∧
    calculateSampleSize baselineRate minimumDetectableEffect 0.05 0.20 =
      sampleSizeFormula baselineRate minimumDetectableEffect := by
  have hb : getZScore (1 - 0.20) = 1.96 := by
    simp only [getZScore]
    rw [if_neg (by norm_num), if_neg (by norm_num), if_neg (by norm_num)]
  have ha : getZScore (1 - 0.05 / 2) = 1.96 := by
    simp only [getZScore]
    rw [if_neg (by norm_num), if_neg (by norm_num), if_neg (by norm_num)]
  refine ⟨hb, ?_⟩
  simp only [calculateSampleSize, sampleSizeFormula, ha, hb]

/-- C7 counterexample: at (c, n) = (0, 0) both intervals are `(0, 0)`
(the `visitors === 0` guard), so the 99% interval is not strictly wider
than the 90% one. -/
theorem ci_wider_cex :
    ¬ ((calculateConfidenceInterval ((0 : ℕ) : ℝ) ((0 : ℕ) : ℝ) 0.99).2 -
         (calculateConfidenceInterval ((0 : ℕ) : ℝ) ((0 : ℕ) : ℝ) 0.99).1 >
       (calculateConfidenceInterval ((0 : ℕ) : ℝ) ((0 : ℕ) : ℝ) 0.90).2 -
         (calculateConfidenceInterval ((0 : ℕ) : ℝ) ((0 : ℕ) : ℝ) 0.90).1) := by
  simp [calculateConfidenceInterval]

/-- C7 (amended): for every pair of non-negative integers c ≤ n the 99%
interval is at least as wide as the 90% one (equality occurs in the
degenerate cases: zero visitors, conversion rate 0 or 1, or both ends
clamped). -/
theorem ci_wider_99_vs_90 (c n : ℕ) (h : c ≤ n) :
    (calculateConfidenceInterval c n 0.90).2 -
      (calculateConfidenceInterval c n 0.90).1 ≤
    (calculateConfidenceInterval c n 0.99).2 -
      (calculateConfidenceInterval c n 0.99).1 := by
  by_cases hn : (n : ℝ) = 0
  · simp [calculateConfidenceInterval, hn]
  · have h90 : getZScore 0.90 = 1.645 := by
      norm_num [getZScore]
    have h99 : getZScore 0.99 = 2.576 := by
      norm_num [getZScore]
    simp only [calculateConfidenceInterval, if_neg hn, h90, h99]
    have hs : (0 : ℝ) ≤ Real.sqrt ((c : ℝ) / n * (1 - (c : ℝ) / n) / n) :=
      Real.sqrt_nonneg _
    set s := Real.sqrt ((c : ℝ) / n * (1 - (c : ℝ) / n) / n) with hsdef
    have hm : 1.645 * s ≤ 2.576 * s := by nlinarith
    have hmin : min 1 ((c : ℝ) / n + 1.645 * s) ≤
        min 1 ((c : ℝ) / n + 2.576 * s) :=
      min_le_min le_rfl (by linarith)
    have hmax : max 0 ((c : ℝ) / n - 2.576 * s) ≤
        max 0 ((c : ℝ) / n - 1.645 * s) :=
      max_le_max le_rfl (by linarith)
    exact sub_le_sub hmin hmax

theorem ci_wider_99_vs_90_witness :
    1 ≤ 2 ∧
    ((calculateConfidenceInterval ((1 : ℕ) : ℝ) ((2 : ℕ) : ℝ) 0.90).2 -
       (calculateConfidenceInterval ((1 : ℕ) : ℝ) ((2 : ℕ) : ℝ) 0.90).1 ≤
     (calculateConfidenceInterval ((1 : ℕ) : ℝ) ((2 : ℕ) : ℝ) 0.99).2 -
       (calculateConfidenceInterval ((1 : ℕ) : ℝ) ((2 : ℕ) : ℝ) 0.99).1) :=
  ⟨by decide, ci_wider_99_vs_90 1 2 (by decide)⟩

lemma normalCDF_zero : normalCDF 0 = 0.5000000005 := by
  have h0 : |(0:ℝ)| / Real.sqrt 2 = 0 := by simp
  simp only [normalCDF, h0]
  norm_num [Real.exp_zero]

lemma calculateZScore_of_ne (x1 n1 x2 n2 : ℝ) (h1 : n1 ≠ 0) (h2 : n2 ≠ 0)
    (hse : Real.sqrt ((x1 + x2) / (n1 + n2) * (1 - (x1 + x2) / (n1 + n2)) *
      (1 / n1 + 1 / n2)) ≠ 0) :
    calculateZScore x1 n1 x2 n2 = (x1 / n1 - x2 / n2) /
      Real.sqrt ((x1 + x2) / (n1 + n2) * (1 - (x1 + x2) / (n1 + n2)) *
        (1 / n1 + 1 / n2)) := by
  simp only [calculateZScore]
  rw [if_neg (not_or.mpr ⟨h1, h2⟩), if_neg hse]

lemma calculateSignificance_of_ne (x1 n1 x2 n2 : ℝ) (h1 : n1 ≠ 0)
    (h2 : n2 ≠ 0) :
    calculateSignificance x1 n1 x2 n2 =
      2 * (1 - normalCDF |calculateZScore x1 n1 x2 n2|) := by
  simp only [calculateSignificance]
  rw [if_neg (not_or.mpr ⟨h1, h2⟩)]

lemma chiSquareTest_chiSquare (A N1 B N2 : ℝ) :
    (chiSquareTest A N1 B N2).chiSquare =
    (A - N1 * (A + B) / (N1 + N2)) ^ 2 / (N1 * (A + B) / (N1 + N2)) +
    ((N1 - A) - N1 * ((N1 - A) + (N2 - B)) / (N1 + N2)) ^ 2 /
      (N1 * ((N1 - A) + (N2 - B)) / (N1 + N2)) +
    (B - N2 * (A + B) / (N1 + N2)) ^ 2 / (N2 * (A + B) / (N1 + N2)) +
    ((N2 - B) - N2 * ((N1 - A) + (N2 - B)) / (N1 + N2)) ^ 2 /
      (N2 * ((N1 - A) + (N2 - B)) / (N1 + N2)) := rfl

lemma chiSquareTest_pValue (A N1 B N2 : ℝ) :
    (chiSquareTest A N1 B N2).pValue =
    1 - chiSquareCDF (chiSquareTest A N1 B N2).chiSquare 1 := rfl

set_option maxHeartbeats 1600000 in
lemma chi_cells_eq (A N1 B N2 : ℝ) (hN1 : N1 ≠ 0) (hN2 : N2 ≠ 0)
    (hT : N1 + N2 ≠ 0) (hC : A + B ≠ 0) (hNC : (N1 - A) + (N2 - B) ≠ 0) :
    (A - N1 * (A + B) / (N1 + N2)) ^ 2 / (N1 * (A + B) / (N1 + N2)) +
    ((N1 - A) - N1 * ((N1 - A) + (N2 - B)) / (N1 + N2)) ^ 2 /
      (N1 * ((N1 - A) + (N2 - B)) / (N1 + N2)) +
    (B - N2 * (A + B) / (N1 + N2)) ^ 2 / (N2 * (A + B) / (N1 + N2)) +
    ((N2 - B) - N2 * ((N1 - A) + (N2 - B)) / (N1 + N2)) ^ 2 /
      (N2 * ((N1 - A) + (N2 - B)) / (N1 + N2)) =
    (A * N2 - B * N1) ^ 2 * (N1 + N2) /
      (N1 * N2 * (A + B) * ((N1 - A) + (N2 - B))) := by
  field_simp
  ring

set_option maxHeartbeats 1600000 in
lemma zsq_eq (A N1 B N2 : ℝ) (hN1 : N1 ≠ 0) (hN2 : N2 ≠ 0)
    (hT : N1 + N2 ≠ 0) (hC : A + B ≠ 0) (hNC : (N1 - A) + (N2 - B) ≠ 0) :
    (A / N1 - B / N2) ^ 2 /
      ((A + B) / (N1 + N2) * (1 - (A + B) / (N1 + N2)) * (1 / N1 + 1 / N2)) =
    (A * N2 - B * N1) ^ 2 * (N1 + N2) /
      (N1 * N2 * (A + B) * ((N1 - A) + (N2 - B))) := by
  have hq : (A + B) / (N1 + N2) * (1 - (A + B) / (N1 + N2)) *
      (1 / N1 + 1 / N2) =
      (A + B) * ((N1 - A) + (N2 - B)) * (N1 + N2) /
        ((N1 + N2) ^ 2 * (N1 * N2)) := by
    field_simp
    ring
  have hd1 : (A + B) * ((N1 - A) + (N2 - B)) * (N1 + N2) /
      ((N1 + N2) ^ 2 * (N1 * N2)) ≠ 0 := by
    apply div_ne_zero (mul_ne_zero (mul_ne_zero hC hNC) hT)
    exact mul_ne_zero (pow_ne_zero _ hT) (mul_ne_zero hN1 hN2)
  have hd2 : N1 * N2 * (A + B) * ((N1 - A) + (N2 - B)) ≠ 0 :=
    mul_ne_zero (mul_ne_zero (mul_ne_zero hN1 hN2) hC) hNC
  rw [hq, div_eq_div_iff hd1 hd2]
  field_simp
  ring

/-- C4: for a 2×2 table with positive exposures and all four expected cell
counts nonzero, the chi-square statistic equals the square of the pooled
two-proportion z-score, and the df = 1 p-value `1 − (2·Φ(√x) − 1)` agrees
with the two-tailed `2·(1 − Φ(|z|))` within floating tolerance (they are
identical when the statistic is positive, and differ by exactly 10⁻⁹ — the
Abramowitz–Stegun residue at 0 — when both proportions coincide). -/
theorem chiSquare_z_consistency (c1 v1 c2 v2 : ℕ)
    (hc1 : c1 ≤ v1) (hc2 : c2 ≤ v2) (hv1 : 0 < v1) (hv2 : 0 < v2)
    (htc : 0 < c1 + c2) (htnc : c1 + c2 < v1 + v2) :
    (chiSquareTest c1 v1 c2 v2).chiSquare =
      calculateZScore c1 v1 c2 v2 ^ 2 ∧
    |(chiSquareTest c1 v1 c2 v2).pValue -
      calculateSignificance c1 v1 c2 v2| ≤ 1e-9 := by
  have hN1 : (0:ℝ) < (v1:ℝ) := by exact_mod_cast hv1
  have hN2 : (0:ℝ) < (v2:ℝ) := by exact_mod_cast hv2
  have hN1' : (v1:ℝ) ≠ 0 := ne_of_gt hN1
  have hN2' : (v2:ℝ) ≠ 0 := ne_of_gt hN2
  have hTpos : (0:ℝ) < (v1:ℝ) + (v2:ℝ) := by linarith
  have hT' : ((v1:ℝ) + (v2:ℝ)) ≠ 0 := ne_of_gt hTpos
  have hCpos : (0:ℝ) < (c1:ℝ) + (c2:ℝ) := by exact_mod_cast htc
  have hC' : ((c1:ℝ) + (c2:ℝ)) ≠ 0 := ne_of_gt hCpos
  have hCT : (c1:ℝ) + (c2:ℝ) < (v1:ℝ) + (v2:ℝ) := by exact_mod_cast htnc
  have hNCpos : (0:ℝ) < ((v1:ℝ) - (c1:ℝ)) + ((v2:ℝ) - (c2:ℝ)) := by linarith
  have hNC' : (((v1:ℝ) - (c1:ℝ)) + ((v2:ℝ) - (c2:ℝ))) ≠ 0 := ne_of_gt hNCpos
  have harg : (0:ℝ) < ((c1:ℝ) + (c2:ℝ)) / ((v1:ℝ) + (v2:ℝ)) *
      (1 - ((c1:ℝ) + (c2:ℝ)) / ((v1:ℝ) + (v2:ℝ))) *
      (1 / (v1:ℝ) + 1 / (v2:ℝ)) := by
    have hp : (0:ℝ) < ((c1:ℝ) + (c2:ℝ)) / ((v1:ℝ) + (v2:ℝ)) :=
      div_pos hCpos hTpos
    have hp1 : ((c1:ℝ) + (c2:ℝ)) / ((v1:ℝ) + (v2:ℝ)) < 1 :=
      (div_lt_one hTpos).mpr hCT
    have h3 : (0:ℝ) < 1 / (v1:ℝ) + 1 / (v2:ℝ) := by positivity
    exact mul_pos (mul_pos hp (by linarith)) h3
  have hse : Real.sqrt (((c1:ℝ) + (c2:ℝ)) / ((v1:ℝ) + (v2:ℝ)) *
      (1 - ((c1:ℝ) + (c2:ℝ)) / ((v1:ℝ) + (v2:ℝ))) *
      (1 / (v1:ℝ) + 1 / (v2:ℝ))) ≠ 0 :=
    ne_of_gt (Real.sqrt_pos.mpr harg)
  have hchi : (chiSquareTest (c1:ℝ) (v1:ℝ) (c2:ℝ) (v2:ℝ)).chiSquare =
      calculateZScore (c1:ℝ) (v1:ℝ) (c2:ℝ) (v2:ℝ) ^ 2 := by
    rw [chiSquareTest_chiSquare,
      chi_cells_eq _ _ _ _ hN1' hN2' hT' hC' hNC',
      calculateZScore_of_ne _ _ _ _ hN1' hN2' hse, div_pow,
      Real.sq_sqrt harg.le, zsq_eq _ _ _ _ hN1' hN2' hT' hC' hNC']
  refine ⟨hchi, ?_⟩
  rw [chiSquareTest_pValue, hchi,
    calculateSignificance_of_ne _ _ _ _ hN1' hN2']
  set z := calculateZScore (c1:ℝ) (v1:ℝ) (c2:ℝ) (v2:ℝ) with hzdef
  by_cases hz0 : z = 0
  · rw [hz0]
    have h00 : chiSquareCDF ((0:ℝ) ^ 2) 1 = 0 := by
      simp only [chiSquareCDF]
      rw [if_pos (by norm_num)]
    rw [h00, abs_zero, normalCDF_zero]
    rw [show (1:ℝ) - 0 - 2 * (1 - 0.5000000005) = 1e-9 by norm_num,
      abs_of_pos (by norm_num)]
  · have hz2 : (0:ℝ) < z ^ 2 := by positivity
    have hcdf : chiSquareCDF (z ^ 2) 1 = 2 * normalCDF (Real.sqrt (z ^ 2)) - 1 := by
      simp only [chiSquareCDF]
      rw [if_neg (not_le.mpr hz2), if_pos trivial]
    rw [hcdf, Real.sqrt_sq_eq_abs,
      show (1:ℝ) - (2 * normalCDF |z| - 1) - 2 * (1 - normalCDF |z|) = 0 by ring,
      abs_zero]
    norm_num

theorem chiSquare_z_consistency_witness :
    (1 ≤ 2 ∧ 1 ≤ 3 ∧ 0 < 2 ∧ 0 < 3 ∧ 0 < 1 + 1 ∧ 1 + 1 < 2 + 3) ∧
    ((chiSquareTest ((1:ℕ):ℝ) ((2:ℕ):ℝ) ((1:ℕ):ℝ) ((3:ℕ):ℝ)).chiSquare =
        calculateZScore ((1:ℕ):ℝ) ((2:ℕ):ℝ) ((1:ℕ):ℝ) ((3:ℕ):ℝ) ^ 2 ∧
      |(chiSquareTest ((1:ℕ):ℝ) ((2:ℕ):ℝ) ((1:ℕ):ℝ) ((3:ℕ):ℝ)).pValue -
        calculateSignificance ((1:ℕ):ℝ) ((2:ℕ):ℝ) ((1:ℕ):ℝ) ((3:ℕ):ℝ)| ≤ 1e-9) :=
  ⟨⟨by decide, by decide, by decide, by decide, by decide, by decide⟩,
   chiSquare_z_consistency 1 2 1 3 (by decide) (by decide) (by decide)
     (by decide) (by decide) (by decide)⟩
